import Mathlib

/-!
Shallow embedding of the CAS-style authentication core of the repository
(`api/cas/cas_auth.py`), together with theorems settling the specification
claims about it.

Modelling conventions:
* Python dict/str/None values produced by `xmltodict.parse` and `json.loads`
  are modelled by the mutual inductive `PyVal`/`PyEntries`.
* Python exceptions are modelled by `Except PyErr`; each embedded operation
  that can raise returns `Except PyErr α`.  The exception classes relevant to
  the embedded code are listed in `PyErr`.
* Machine integers do not occur; timestamps (`datetime.utcnow()`,
  `creation_date`) are natural numbers counting minutes, so that
  `timedelta(hours=24)` is the constant `1440`.
* External effects (the RSA decryption pipeline, `urlopen` + `xmltodict.parse`
  per URL, the OAuth profile endpoint, `json.loads`) are oracles carried in an
  `Env` record; the control flow around them is translated from the source.
* The database (`db.session.query(...)`, `add`, `commit`) is explicit state of
  type `DB`; `filter_by(...).first()` is `List.find?` in insertion order.
* `api/cas/cas_urls.py` is not part of the given sources.  Modelled from the
  spec: the two URL constructors (`create_cas_proxy_url`,
  `create_cas_proxy_validate_url`) build validation URLs from the server, the
  request's base URL and a ticket; they are represented structurally by the
  inductive `CasUrl`, keeping their three arguments.
-/

/-- Python exception classes that the embedded code can raise. -/
inductive PyErr where
  | valueError
  | urlError        -- urllib.error.URLError (an OSError) from urlopen
  | expatError      -- xml.parsers.expat.ExpatError from xmltodict.parse
  | keyError        -- KeyError from dict[missing]
  | typeError       -- TypeError from indexing/iterating None or str[str]
  | attributeError  -- AttributeError from None.get / str.get
  | indexError      -- IndexError from list[1] on a short list
deriving DecidableEq, Repr

mutual
/-- A Python value as produced by `xmltodict.parse` / `json.loads`:
`None`, a string, or a (ordered) dict with string keys. -/
inductive PyVal where
  | none : PyVal
  | str : String → PyVal
  | dict : PyEntries → PyVal

/-- The entries of a Python dict, in insertion order. -/
inductive PyEntries where
  | nil : PyEntries
  | cons : String → PyVal → PyEntries → PyEntries
end

/-- Key lookup in a Python dict. -/
def PyEntries.lookup : PyEntries → String → Option PyVal
  | .nil, _ => Option.none
  | .cons k v r, key => if k == key then some v else r.lookup key

/-- `key in d` for a dict `d`. -/
def PyEntries.hasKey (es : PyEntries) (key : String) : Bool :=
  (es.lookup key).isSome

/-- Whether a dict is empty (Python falsy). -/
def PyEntries.isEmpty : PyEntries → Bool
  | .nil => true
  | .cons _ _ _ => false

/-- Python truthiness of a value: `None` and `''` and `{}` are falsy. -/
def PyVal.truthy : PyVal → Bool
  | .none => false
  | .str s => !(s == "")
  | .dict es => !es.isEmpty

/-- Python `s.startswith(pre)` (structural, on the character lists). -/
def pyStartsWith (s pre : String) : Bool :=
  pre.data.isPrefixOf s.data

/-- Whether `pat` occurs as a contiguous sublist of `s`. -/
def listContainsSub (pat : List Char) : List Char → Bool
  | [] => pat.isEmpty
  | c :: rest => pat.isPrefixOf (c :: rest) || listContainsSub pat rest

/-- Python substring membership `pat in s` (for strings). -/
def pyInStr (pat s : String) : Bool :=
  listContainsSub pat.data s.data

/-- Python subscript `v[key]` with a string key: dict lookup raising
`KeyError` on a missing key; `TypeError` on a string or `None`. -/
def pyIndex (v : PyVal) (key : String) : Except PyErr PyVal :=
  match v with
  | .dict es =>
      match es.lookup key with
      | some w => .ok w
      | Option.none => .error .keyError
  | .str _ => .error .typeError
  | .none => .error .typeError

/-- Python membership `key in v`: key membership on a dict, substring test on
a string, `TypeError` on `None`. -/
def pyContains (v : PyVal) (key : String) : Except PyErr Bool :=
  match v with
  | .dict es => .ok (es.hasKey key)
  | .str s => .ok (pyInStr key s)
  | .none => .error .typeError

/-- Python `v.get(key, {})`: dict method returning `{}` when the key is
absent; `AttributeError` when `v` is a string or `None`. -/
def pyGetDefault (v : PyVal) (key : String) : Except PyErr PyVal :=
  match v with
  | .dict es => .ok ((es.lookup key).getD (.dict .nil))
  | .str _ => .error .attributeError
  | .none => .error .attributeError

/-- Split a character list at whitespace, keeping empty pieces. -/
def splitWs : List Char → List (List Char)
  | [] => [[]]
  | c :: rest =>
      if c.isWhitespace then [] :: splitWs rest
      else
        match splitWs rest with
        | [] => [[c]]
        | h :: t => (c :: h) :: t

/-- Python `s.split()[1]`: split on whitespace discarding empty pieces, then
take index 1, raising `IndexError` when there is no second piece. -/
def pySplitGet1 (s : String) : Except PyErr String :=
  match (splitWs s.data).filter (fun p => !p.isEmpty) with
  | _ :: t :: _ => .ok (String.mk t)
  | _ => .error .indexError

/-- Row of the `member` table (`api.models.member.Member`).  The attribute
columns hold whatever Python value was extracted from the CAS attributes
node, hence `PyVal`. -/
structure Member where
  id : Nat
  first_name : PyVal
  last_name : PyVal
  username : PyVal
  email : PyVal
  organization : PyVal
  urs_token : PyVal

/-- Row of the `member_session` table (`api.models.member_session`). -/
structure MemberSession where
  member_id : Nat
  session_key : String
  creation_date : Nat
deriving DecidableEq, Repr

/-- Row of the `member_job` table (`api.models.member_job`). -/
structure MemberJob where
  job_id : String
  member_id : Nat
deriving DecidableEq, Repr

/-- The relational store accessed through `db.session`:  rows in insertion
order plus the autoincrement counter for `member.id`. -/
structure DB where
  members : List Member
  sessions : List MemberSession
  jobs : List MemberJob
  nextId : Nat

mutual
/-- Boolean equality of Python values, for `filter_by(username=usr)`. -/
def PyVal.beq : PyVal → PyVal → Bool
  | .none, .none => true
  | .str a, .str b => a == b
  | .dict a, .dict b => PyEntries.beq a b
  | _, _ => false

/-- Boolean equality of dict entries. -/
def PyEntries.beq : PyEntries → PyEntries → Bool
  | .nil, .nil => true
  | .cons k v r, .cons k' v' r' => k == k' && PyVal.beq v v' && PyEntries.beq r r'
  | _, _ => false
end

/-- The inbound HTTP request: its headers as name/value pairs. -/
structure Request where
  headers : List (String × String)

/-- Header lookup (`request.headers[h]` / `h in request.headers`). -/
def Request.lookup (req : Request) (h : String) : Option String :=
  (req.headers.find? (fun p => p.1 == h)).map (fun p => p.2)

/-- `request.headers[h]` under a guard that ensured presence. -/
def Request.headerD (req : Request) (h : String) : String :=
  (req.lookup h).getD ""

/-- Modelled from the spec: `api/cas/cas_urls.py` is absent from the given
sources; a CAS validation URL is kept structurally as its constructor and the
three arguments (identity-server base URL, the request's base URL as the
target service, and the ticket).  `create_cas_proxy_url` yields `proxy`,
`create_cas_proxy_validate_url` yields `proxyValidate` (whose ticket is the
Python value extracted from the first-hop response). -/
inductive CasUrl where
  | proxy (server : String) (service : String) (ticket : String)
  | proxyValidate (server : String) (service : String) (ticket : PyVal)

/-- A remote round trip made while authenticating: a CAS validation GET or a
GET to the OAuth2 profile endpoint. -/
inductive RemoteCall where
  | cas (url : CasUrl)
  | profile (token : String)

/-- The ambient process/request environment: the clock, configuration, and
the external effects as oracles.
* `dec t` models the body of the decryption `try` block of
  `decrypt_proxy_ticket` (base64-decode, RSA PKCS1 v1.5 decrypt with a random
  sentinel, UTF-8 decode); `Option.none` means some step raised (the bare
  `except` catches everything).
* `net u` models `urlopen(u).read().strip().decode('utf8','ignore')` followed
  by `xmltodict.parse`; an `Except.error` is the exception raised by either.
* `profile tok` is the `(status_code, text)` of the GET to `/oauth2.0/profile`.
* `loads s` models `json.loads`. -/
structure Env where
  now : Nat
  casServer : String
  baseUrl : String
  dpsToken : String
  dec : String → Option String
  net : CasUrl → Except PyErr PyVal
  profile : String → Nat × String
  loads : String → Except PyErr PyVal

/-- `PROXY_TICKET_PREFIX` (cas_auth.py line 31). -/
def PROXY_TICKET_PREFIX : String := "PGT-"

/-- `decrypt_proxy_ticket` (cas_auth.py lines 173-187): tickets already in
plaintext proxy-ticket form pass through; otherwise the decryption pipeline
runs inside `try`, and any failure is caught by the bare `except`, returning
the empty string. -/
def decrypt_proxy_ticket (dec : String → Option String) (ticket : String) : String :=
  if pyStartsWith ticket PROXY_TICKET_PREFIX then ticket
  else
    match dec ticket with
    | some s => s
    | Option.none => ""

/-- `get_cas_attribute_value` (cas_auth.py lines 165-170):
`if attributes and "cas:" + key in attributes: return attributes[...]` else
`''`.  On a falsy value the condition short-circuits to `''`; on a non-empty
string the membership test is a substring test and the subsequent subscript
raises `TypeError`. -/
def get_cas_attribute_value (attributes : PyVal) (attribute_key : String) :
    Except PyErr PyVal :=
  match attributes with
  | .none => .ok (.str "")
  | .str s =>
      if s == "" then .ok (.str "")
      else if pyInStr ("cas:" ++ attribute_key) s then .error .typeError
      else .ok (.str "")
  | .dict es =>
      if es.isEmpty then .ok (.str "")
      else
        match es.lookup ("cas:" ++ attribute_key) with
        | some v => .ok v
        | Option.none => .ok (.str "")

/-- `validate_cas_request` (cas_auth.py lines 117-133).  Starts with
`xml_from_dict = {}`, `is_valid = False`; fetches and parses the URL; declares
success when the `cas:serviceResponse` node contains
`cas:authenticationSuccess` or `cas:proxySuccess`.  Only `ValueError` is
caught (returning the variables as assigned so far); every other exception
(`URLError` from `urlopen`, `ExpatError` from the parser, `KeyError`/
`TypeError` from the subscript and membership tests) propagates. -/
def validate_cas_request (net : CasUrl → Except PyErr PyVal) (cas_url : CasUrl) :
    Except PyErr (Bool × PyVal) :=
  match net cas_url with
  | .error .valueError => .ok (false, .dict .nil)
  | .error e => .error e
  | .ok xml_from_dict =>
      match pyIndex xml_from_dict "cas:serviceResponse" with
      | .error .valueError => .ok (false, xml_from_dict)
      | .error e => .error e
      | .ok sr =>
          match pyContains sr "cas:authenticationSuccess" with
          | .error .valueError => .ok (false, xml_from_dict)
          | .error e => .error e
          | .ok true => .ok (true, xml_from_dict)
          | .ok false =>
              match pyContains sr "cas:proxySuccess" with
              | .error .valueError => .ok (false, xml_from_dict)
              | .error e => .error e
              | .ok b => .ok (b, xml_from_dict)

/-- Replace the first member matching `p` by `f` of it, as mutating the row
returned by `filter_by(...).first()` does. -/
def updateFirstMember (ms : List Member) (p : Member → Bool) (f : Member → Member) :
    List Member :=
  match ms with
  | [] => []
  | m :: rest => if p m then f m :: rest else m :: updateFirstMember rest p f

/-- `start_member_session` (cas_auth.py lines 136-162): extract the
`cas:authenticationSuccess` node and its attributes from the second-hop
response, resolve or create the `Member` by username (always storing the
fresh `access_token`), commit, then add a new `MemberSession` keyed by the
(decrypted) ticket with `creation_date = utcnow()`. -/
def start_member_session (doc : PyVal) (ticket : String) (now : Nat) (db : DB) :
    Except PyErr (MemberSession × DB) :=
  match pyIndex doc "cas:serviceResponse" with
  | .error e => .error e
  | .ok sr =>
  match pyIndex sr "cas:authenticationSuccess" with
  | .error e => .error e
  | .ok xml_from_dict =>
  match pyGetDefault xml_from_dict "cas:attributes" with
  | .error e => .error e
  | .ok attributes =>
  match get_cas_attribute_value attributes "preferred_username" with
  | .error e => .error e
  | .ok usr =>
  let member? := db.members.find? (fun m => PyVal.beq m.username usr)
  match get_cas_attribute_value attributes "access_token" with
  | .error e => .error e
  | .ok urs_access_token =>
  match member? with
  | Option.none =>
      match get_cas_attribute_value attributes "given_name" with
      | .error e => .error e
      | .ok given_name =>
      match get_cas_attribute_value attributes "family_name" with
      | .error e => .error e
      | .ok family_name =>
      match get_cas_attribute_value attributes "email" with
      | .error e => .error e
      | .ok email =>
      match get_cas_attribute_value attributes "organization" with
      | .error e => .error e
      | .ok organization =>
      let member : Member :=
        { id := db.nextId, first_name := given_name, last_name := family_name,
          username := usr, email := email, organization := organization,
          urs_token := urs_access_token }
      let member_session : MemberSession :=
        { member_id := member.id, session_key := ticket, creation_date := now }
      .ok (member_session,
           { db with members := db.members ++ [member],
                     nextId := db.nextId + 1,
                     sessions := db.sessions ++ [member_session] })
  | some m =>
      let member_session : MemberSession :=
        { member_id := m.id, session_key := ticket, creation_date := now }
      .ok (member_session,
           { db with members := updateFirstMember db.members
                       (fun x => PyVal.beq x.username usr)
                       (fun x => { x with urs_token := urs_access_token }),
                     sessions := db.sessions ++ [member_session] })

/-- `timedelta(hours=24)` in minutes. -/
def hours24 : Nat := 24 * 60

/-- The `else` branch of `validate_proxy` (cas_auth.py lines 51-78): first hop
with the decrypted ticket, extraction of the one-time proxy ticket, second hop,
and session creation; every failed validation falls through to `return None`.
The second component records the CAS URLs requested, in order. -/
def validate_proxy_revalidate (env : Env) (db : DB) (decrypted_ticket : String) :
    Except PyErr (Option MemberSession × DB) × List CasUrl :=
  let url1 := CasUrl.proxy env.casServer env.baseUrl decrypted_ticket
  match validate_cas_request env.net url1 with
  | .error e => (.error e, [url1])
  | .ok (false, _) => (.ok (Option.none, db), [url1])
  | .ok (true, doc1) =>
      match pyIndex doc1 "cas:serviceResponse" with
      | .error e => (.error e, [url1])
      | .ok sr =>
      match pyIndex sr "cas:proxySuccess" with
      | .error e => (.error e, [url1])
      | .ok xml_from_dict =>
      match pyIndex xml_from_dict "cas:proxyTicket" with
      | .error e => (.error e, [url1])
      | .ok proxy_ticket =>
          let url2 := CasUrl.proxyValidate env.casServer env.baseUrl proxy_ticket
          match validate_cas_request env.net url2 with
          | .error e => (.error e, [url1, url2])
          | .ok (false, _) => (.ok (Option.none, db), [url1, url2])
          | .ok (true, doc2) =>
              match start_member_session doc2 decrypted_ticket env.now db with
              | .error e => (.error e, [url1, url2])
              | .ok (ms, db') => (.ok (some ms, db'), [url1, url2])

/-- `validate_proxy` after decryption (cas_auth.py lines 46-78): look up the
session by the decrypted value; a hit younger than 24 hours is returned with
no remote call, anything else revalidates remotely. -/
def validate_proxy_decrypted (env : Env) (db : DB) (decrypted_ticket : String) :
    Except PyErr (Option MemberSession × DB) × List CasUrl :=
  match db.sessions.find? (fun s => s.session_key == decrypted_ticket) with
  | some cas_session =>
      if env.now < cas_session.creation_date + hours24 then
        (.ok (some cas_session, db), [])
      else
        validate_proxy_revalidate env db decrypted_ticket
  | Option.none => validate_proxy_revalidate env db decrypted_ticket

/-- `validate_proxy` (cas_auth.py lines 34-78). -/
def validate_proxy (env : Env) (db : DB) (ticket : String) :
    Except PyErr (Option MemberSession × DB) × List CasUrl :=
  validate_proxy_decrypted env db (decrypt_proxy_ticket env.dec ticket)

/-- `validate_dps_job` (cas_auth.py lines 81-96): fail fast on a mismatched
machine token, else resolve the `MemberJob` by `job_id` and return its
`member` relationship (the `Member` row with the job's `member_id`). -/
def validate_dps_job (dps_machine_token : String) (db : DB)
    (dps_token : String) (job_id : String) : Option Member :=
  if dps_token ≠ dps_machine_token then Option.none
  else
    match db.jobs.find? (fun j => j.job_id == job_id) with
    | Option.none => Option.none
    | some dps_job => db.members.find? (fun m => m.id == dps_job.member_id)

/-- `validate_bearer` (cas_auth.py lines 99-114): GET the profile endpoint
with the token; on HTTP 200 return `json.loads` of the body (whose own
exceptions are not caught), else `None`.  The second component records the
remote call made. -/
def validate_bearer (env : Env) (token : String) :
    Except PyErr (Option PyVal) × List RemoteCall :=
  let resp := env.profile token
  if resp.1 == 200 then
    match env.loads resp.2 with
    | .error e => (.error e, [.profile token])
    | .ok v => (.ok (some v), [.profile token])
  else
    (.ok Option.none, [.profile token])

/-- The value `get_authorized_user` returns: the session's `Member` on the
proxy path, the parsed profile JSON on the bearer path. -/
inductive AuthUser where
  | member (m : Member)
  | profileAttrs (v : PyVal)

/-- The `Authorization` part of `get_authorized_user` (cas_auth.py lines
197-205), entered when the proxy branch did not return. -/
def gau_bearer (env : Env) (db : DB) (req : Request) (tr0 : List RemoteCall) :
    Except PyErr (Option AuthUser × DB) × List RemoteCall :=
  match req.lookup "Authorization" with
  | some bearer =>
      match pySplitGet1 bearer with
      | .error e => (.error e, tr0)
      | .ok token =>
          match validate_bearer env token with
          | (.error e, calls) => (.error e, tr0 ++ calls)
          | (.ok (some v), calls) => (.ok (some (.profileAttrs v), db), tr0 ++ calls)
          | (.ok Option.none, calls) => (.ok (Option.none, db), tr0 ++ calls)
  | Option.none => (.ok (Option.none, db), tr0)

/-- `get_authorized_user` (cas_auth.py lines 190-205): try the proxy ticket
first, returning `member_session.member` on a positive result; otherwise try
the `Authorization` header; otherwise `None`. -/
def get_authorized_user (env : Env) (db : DB) (req : Request) :
    Except PyErr (Option AuthUser × DB) × List RemoteCall :=
  match req.lookup "proxy-ticket" with
  | some pt =>
      match validate_proxy env db pt with
      | (.error e, tr) => (.error e, tr.map RemoteCall.cas)
      | (.ok (some member_session, db'), tr) =>
          (.ok ((db'.members.find? (fun m => m.id == member_session.member_id)).map
                  AuthUser.member, db'),
           tr.map RemoteCall.cas)
      | (.ok (Option.none, db'), tr) => gau_bearer env db' req (tr.map RemoteCall.cas)
  | Option.none => gau_bearer env db req []

/-- Outcome of a guarded request: the wrapped handler's result, or
`abort(403, description=...)`. -/
inductive AuthOutcome (α : Type) where
  | ok (a : α)
  | abort403 (description : String)

/-- The `Authorization` part of the `wrap` closure of `login_required`
(cas_auth.py lines 226-234), entered when the proxy branch did not return. -/
def login_bearer {α : Type} (env : Env) (db : DB) (req : Request) (a : α)
    (tr0 : List RemoteCall) :
    Except PyErr (AuthOutcome α × DB) × List RemoteCall :=
  match req.lookup "Authorization" with
  | some bearer =>
      match pySplitGet1 bearer with
      | .error e => (.error e, tr0)
      | .ok token =>
          match validate_bearer env token with
          | (.error e, calls) => (.error e, tr0 ++ calls)
          | (.ok (some _), calls) => (.ok (.ok a, db), tr0 ++ calls)
          | (.ok Option.none, calls) =>
              (.ok (.abort403 "Not authorized.", db), tr0 ++ calls)
  | Option.none => (.ok (.abort403 "Not authorized.", db), tr0)

/-- The behaviour of the `wrap` closure defined inside `login_required`
(cas_auth.py lines 218-234): proxy ticket first, then bearer token, then
`abort(403, description="Not authorized.")`.  `a` stands for the result of
the wrapped handler. -/
def login_required_wrap {α : Type} (env : Env) (db : DB) (req : Request) (a : α) :
    Except PyErr (AuthOutcome α × DB) × List RemoteCall :=
  match req.lookup "proxy-ticket" with
  | some pt =>
      match validate_proxy env db pt with
      | (.error e, tr) => (.error e, tr.map RemoteCall.cas)
      | (.ok (some _, db'), tr) => (.ok (.ok a, db'), tr.map RemoteCall.cas)
      | (.ok (Option.none, db'), tr) => login_bearer env db' req a (tr.map RemoteCall.cas)
  | Option.none => login_bearer env db req a []

/-- `login_required` (cas_auth.py lines 216-234), the decorator itself: it
defines `wrap` (whose behaviour is `login_required_wrap`) but its body ends
after the inner definition without `return wrap`, so the decorator call
returns Python `None` and the decorated handler is replaced by `None`. -/
def login_required {α : Type} (wrapped_function : α) :
    Option (Env → DB → Request → Except PyErr (AuthOutcome α × DB) × List RemoteCall) :=
  let _wrap := fun env db req => login_required_wrap env db req wrapped_function
  Option.none

/-- `_is_valid_dps_request` (cas_auth.py lines 250-251). -/
def is_valid_dps_request (req : Request) : Bool :=
  (req.lookup "dps-machine-token").isSome && (req.lookup "dps-job-id").isSome

/-- The behaviour of the `wrap` closure defined inside `dps_authorized`
(cas_auth.py lines 239-247). -/
def dps_authorized_wrap {α : Type} (env : Env) (db : DB) (req : Request) (a : α) :
    AuthOutcome α :=
  if is_valid_dps_request req then
    match validate_dps_job env.dpsToken db (req.headerD "dps-machine-token")
        (req.headerD "dps-job-id") with
    | some _ => .ok a
    | Option.none => .abort403 "Not authorized."
  else .abort403 "Not authorized."

/-- `dps_authorized` (cas_auth.py lines 237-247), the decorator itself: like
`login_required` it never returns its `wrap`, evaluating to Python `None`. -/
def dps_authorized {α : Type} (wrapped_function : α) :
    Option (Env → DB → Request → AuthOutcome α) :=
  let _wrap := fun env db req => dps_authorized_wrap env db req wrapped_function
  Option.none

/-- `get_dps_user` (cas_auth.py lines 208-213). -/
def get_dps_user (env : Env) (db : DB) (req : Request) : Option Member :=
  if is_valid_dps_request req then
    validate_dps_job env.dpsToken db (req.headerD "dps-machine-token")
      (req.headerD "dps-job-id")
  else Option.none

/-! ## Helper lemmas -/

/-- Whatever happens inside the revalidation branch, the first remote call it
makes is the first-hop proxy-validate URL for the decrypted ticket. -/
theorem revalidate_trace_head (env : Env) (db : DB) (k : String) :
    (validate_proxy_revalidate env db k).2.head? =
      some (CasUrl.proxy env.casServer env.baseUrl k) := by
  unfold validate_proxy_revalidate
  dsimp only
  repeat' split
  all_goals rfl

/-- `updateFirstMember` never changes the number of rows. -/
theorem updateFirstMember_length (l : List Member) (p : Member → Bool)
    (f : Member → Member) : (updateFirstMember l p f).length = l.length := by
  induction l with
  | nil => rfl
  | cons m rest ih =>
      simp only [updateFirstMember]
      split <;> simp [ih]

/-- After updating the first row matching `p` with an update that keeps `p`
true, the first row matching `p` is the updated one. -/
theorem updateFirstMember_find? (l : List Member) (p : Member → Bool)
    (f : Member → Member) (m : Member)
    (hfind : l.find? p = some m) (hp : p (f m) = true) :
    (updateFirstMember l p f).find? p = some (f m) := by
  induction l with
  | nil => simp at hfind
  | cons x rest ih =>
      by_cases hx : p x = true
      · have hxm : x = m := by
          rw [List.find?_cons_of_pos _ hx] at hfind
          exact Option.some.inj hfind
        subst hxm
        simp only [updateFirstMember, hx, if_true]
        rw [List.find?_cons_of_pos _ hp]
      · have hx' : p x = false := by simpa using hx
        have hfind' : rest.find? p = some m := by
          rwa [List.find?_cons_of_neg _ (by simp [hx'])] at hfind
        simp only [updateFirstMember, hx', if_false, Bool.false_eq_true]
        rw [List.find?_cons_of_neg _ (by simp [hx'])]
        exact ih hfind'

/-! ## Concrete sample data for witnesses and counterexamples -/

/-- A decryption oracle on which every decryption attempt fails. -/
def decFail : String → Option String := fun _ => Option.none

/-- A network oracle on which every fetch raises `URLError`. -/
def netUrlError : CasUrl → Except PyErr PyVal := fun _ => .error .urlError

/-- A network oracle on which every fetch raises `ValueError`. -/
def netValueError : CasUrl → Except PyErr PyVal := fun _ => .error .valueError

/-- A profile oracle answering HTTP 500. -/
def profile500 : String → Nat × String := fun _ => (500, "")

/-- A `json.loads` oracle that always raises `ValueError`. -/
def loadsFail : String → Except PyErr PyVal := fun _ => .error .valueError

/-- An empty database. -/
def dbEmpty : DB := ⟨[], [], [], 1⟩

/-- A cached session for the plaintext ticket `"PGT-abc"`, created at time 0. -/
def sessHit : MemberSession := ⟨1, "PGT-abc", 0⟩

/-- A database holding only `sessHit`. -/
def dbHit : DB := ⟨[], [sessHit], [], 2⟩

/-- Environment at `now = 1439` (23h59m after `sessHit` was created) whose
remote oracles all fail. -/
def envHit : Env :=
  { now := 1439, casServer := "cas", baseUrl := "svc", dpsToken := "d",
    dec := decFail, net := netUrlError, profile := profile500, loads := loadsFail }

/-! ## Claim C9 -/

/-- Claim C9: for every ticket already carrying the canonical proxy-ticket
prefix, `decrypt_proxy_ticket` returns it unchanged; for every other input on
which the decryption pipeline fails (malformed base64, failed RSA/PKCS1 v1.5
decryption — the oracle returns no plaintext), it returns the empty string.
Totality (never raising past the boundary) is by construction: the bare
`except` is modelled by the oracle's `Option` and the function returns a plain
`String`. -/
theorem decrypt_ticket_passthrough_and_failure (dec : String → Option String)
    (t : String) :
    (pyStartsWith t PROXY_TICKET_PREFIX = true → decrypt_proxy_ticket dec t = t) ∧
    (pyStartsWith t PROXY_TICKET_PREFIX = false → dec t = Option.none →
      decrypt_proxy_ticket dec t = "") := by
  constructor
  · intro h
    simp [decrypt_proxy_ticket, h]
  · intro h hd
    simp [decrypt_proxy_ticket, h, hd]

/-- Witness for C9 at the prefixed ticket `"PGT-abc"` and the failing
ciphertext `"zz"`. -/
theorem decrypt_ticket_passthrough_and_failure_witness :
    decrypt_proxy_ticket decFail "PGT-abc" = "PGT-abc" ∧
    decrypt_proxy_ticket decFail "zz" = "" :=
  ⟨(decrypt_ticket_passthrough_and_failure decFail "PGT-abc").1 rfl,
   (decrypt_ticket_passthrough_and_failure decFail "zz").2 rfl rfl⟩

/-! ## Claim C10 -/

/-- Claim C10: `validate_dps_job` returns `None` on a mismatched machine token
for every database and job id (no lookup is consulted); on a matching token it
returns `None` when the job id does not resolve, and the owning member row
when it does. -/
theorem validate_dps_job_contract (secret : String) (db : DB) (tok jid : String) :
    (tok ≠ secret → validate_dps_job secret db tok jid = Option.none) ∧
    (tok = secret →
      (db.jobs.find? (fun j => j.job_id == jid) = Option.none →
        validate_dps_job secret db tok jid = Option.none) ∧
      (∀ j, db.jobs.find? (fun j' => j'.job_id == jid) = some j →
        validate_dps_job secret db tok jid =
          db.members.find? (fun m => m.id == j.member_id))) := by
  refine ⟨fun h => ?_, fun h => ⟨fun hf => ?_, fun j hf => ?_⟩⟩
  · simp [validate_dps_job, h]
  · simp [validate_dps_job, h, hf]
  · simp [validate_dps_job, h, hf]

/-- Member row used by the machine-token witness. -/
def memberAlice : Member :=
  ⟨1, .str "A", .str "L", .str "alice", .str "a@x", .str "org", .str "tok"⟩

/-- Database with one member owning job `"job1"`. -/
def dbJobs : DB := ⟨[memberAlice], [], [⟨"job1", 1⟩], 2⟩

/-- Witness for C10: wrong secret yields `None` even for a valid job id; the
right secret resolves job `"job1"` to its owner. -/
theorem validate_dps_job_contract_witness :
    validate_dps_job "s3cret" dbJobs "wrong" "job1" = Option.none ∧
    validate_dps_job "s3cret" dbJobs "s3cret" "job1" = some memberAlice :=
  ⟨(validate_dps_job_contract "s3cret" dbJobs "wrong" "job1").1 (by decide),
   (((validate_dps_job_contract "s3cret" dbJobs "s3cret" "job1").2 rfl).2
      ⟨"job1", 1⟩ rfl).trans rfl⟩

/-! ## Claim C1 -/

/-- Claim C1: when a session exists for the decrypted ticket value, a call at
any time strictly before creation + 24h returns exactly the cached session
with no remote call (empty call trace), and a call at creation + 24h or later
does not reuse it: it proceeds to the remote revalidation flow, whose first
remote call is the first-hop validation URL for the decrypted ticket. -/
theorem validate_proxy_cache_freshness (env : Env) (db : DB) (raw k : String)
    (s : MemberSession)
    (hdec : decrypt_proxy_ticket env.dec raw = k)
    (hfind : db.sessions.find? (fun t => t.session_key == k) = some s) :
    (env.now < s.creation_date + hours24 →
      validate_proxy env db raw = (.ok (some s, db), [])) ∧
    (s.creation_date + hours24 ≤ env.now →
      validate_proxy env db raw = validate_proxy_revalidate env db k ∧
      (validate_proxy_revalidate env db k).2.head? =
        some (CasUrl.proxy env.casServer env.baseUrl k)) := by
  constructor
  · intro hlt
    simp [validate_proxy, validate_proxy_decrypted, hdec, hfind, hlt]
  · intro hge
    refine ⟨?_, revalidate_trace_head env db k⟩
    simp [validate_proxy, validate_proxy_decrypted, hdec, hfind,
      Nat.not_lt.mpr hge]

/-- Witness for C1: at 23h59m after creation the cached session for
`"PGT-abc"` is returned with an empty remote-call trace. -/
theorem validate_proxy_cache_freshness_witness :
    validate_proxy envHit dbHit "PGT-abc" = (.ok (some sessHit, dbHit), []) :=
  (validate_proxy_cache_freshness envHit dbHit "PGT-abc" "PGT-abc" sessHit
    rfl rfl).1 (by decide)

/-! ## Claim C3 (code bug) -/

/-- Claim C3 evaluated on the code: both guard decorators define their inner
`wrap` closure but fall off the end of the decorator body without
`return wrap`, so applying the guard to any protected handler evaluates to
Python `None`: the decorated endpoint is replaced by `None` and neither the
403 rejection nor the wrapped logic can ever run. -/
theorem guard_decorators_return_none :
    login_required (α := String) "handler-result" = Option.none ∧
    dps_authorized (α := String) "handler-result" = Option.none :=
  ⟨rfl, rfl⟩

/-! ## Claim C4 (code bug) -/

/-- First-hop response whose `cas:proxySuccess` marker lacks the
`cas:proxyTicket` child. -/
def docNoProxyTicket : PyVal :=
  .dict (.cons "cas:serviceResponse"
    (.dict (.cons "cas:proxySuccess"
      (.dict (.cons "cas:foo" (.str "x") .nil)) .nil)) .nil)

/-- A network oracle answering every URL with `docNoProxyTicket`. -/
def netNoProxyTicket : CasUrl → Except PyErr PyVal := fun _ => .ok docNoProxyTicket

/-- Environment whose identity server returns `docNoProxyTicket`. -/
def envC4 : Env :=
  { now := 0, casServer := "cas", baseUrl := "svc", dpsToken := "d",
    dec := decFail, net := netNoProxyTicket, profile := profile500,
    loads := loadsFail }

/-- Claim C4 evaluated on the code at a failing input: a first-hop response
with a success marker but no `cas:proxyTicket` child makes `validate_proxy`
raise `KeyError` past its boundary instead of returning null. -/
theorem validate_proxy_missing_field_raises :
    validate_proxy envC4 dbEmpty "PGT-abc" =
      (.error .keyError, [CasUrl.proxy "cas" "svc" "PGT-abc"]) := rfl

/-! ## Claim C2 (corrected) -/

/-- A fresh session whose ticket key is the empty string. -/
def sessEmptyKey : MemberSession := ⟨1, "", 0⟩

/-- A database holding only `sessEmptyKey`. -/
def dbC2 : DB := ⟨[], [sessEmptyKey], [], 2⟩

/-- Environment at `now = 10` whose decryption always fails. -/
def envC2 : Env :=
  { now := 10, casServer := "cas", baseUrl := "svc", dpsToken := "d",
    dec := decFail, net := netUrlError, profile := profile500, loads := loadsFail }

/-- Counterexample to claim C2: the ticket `"zz"` decrypts to the empty
string, yet `validate_proxy` does not fail immediately with null — it
performs the session-cache lookup on the empty key, hits the fresh session
stored under `""`, and returns it. -/
theorem validate_proxy_empty_decrypt_counterexample :
    decrypt_proxy_ticket envC2.dec "zz" = "" ∧
    validate_proxy envC2 dbC2 "zz" = (.ok (some sessEmptyKey, dbC2), []) :=
  ⟨rfl, rfl⟩

/-- Claim C2 as amended: `validate_proxy` applies no special case to a ticket
whose decryption yields the empty string; it proceeds exactly as for any
ticket decrypting to `""` — the session cache is consulted under the empty
key, and when no session is stored there the identity server is contacted
with the empty ticket (the first remote call carries ticket `""`). -/
theorem validate_proxy_empty_decrypt_amended (env : Env) (db : DB) (t : String)
    (hpre : pyStartsWith t PROXY_TICKET_PREFIX = false)
    (hdec : env.dec t = Option.none) :
    validate_proxy env db t = validate_proxy_decrypted env db "" ∧
    (db.sessions.find? (fun s => s.session_key == "") = Option.none →
      (validate_proxy env db t).2.head? =
        some (CasUrl.proxy env.casServer env.baseUrl "")) := by
  have hd : decrypt_proxy_ticket env.dec t = "" := by
    simp [decrypt_proxy_ticket, hpre, hdec]
  constructor
  · simp [validate_proxy, hd]
  · intro hf
    simp [validate_proxy, validate_proxy_decrypted, hd, hf, revalidate_trace_head]

/-- Witness for the amended C2 at ticket `"zz"` over the empty database: the
first remote call carries the empty ticket. -/
theorem validate_proxy_empty_decrypt_amended_witness :
    (validate_proxy envC2 dbEmpty "zz").2.head? =
      some (CasUrl.proxy "cas" "svc" "") :=
  (validate_proxy_empty_decrypt_amended envC2 dbEmpty "zz" rfl rfl).2 rfl

/-! ## Claim C5 (corrected) -/

/-- Counterexample to claim C5: on a network error (`URLError` from
`urlopen`) `validate_cas_request` does not return failure with an empty
document — only `ValueError` is caught, so the exception propagates. -/
theorem validate_cas_request_network_error_raises :
    validate_cas_request netUrlError (CasUrl.proxy "cas" "svc" "t") =
      .error .urlError := rfl

/-- The subscript `d["cas:serviceResponse"]` raises only `KeyError` or
`TypeError`, never a `ValueError` that the handler could catch. -/
theorem pyIndex_ne_valueError (v : PyVal) (k : String) :
    pyIndex v k ≠ .error .valueError := by
  cases v with
  | dict es => cases h : es.lookup k <;> simp [pyIndex, h]
  | str s => simp [pyIndex]
  | none => simp [pyIndex]

/-- The membership test `key in v` raises only `TypeError`, never a
`ValueError` that the handler could catch. -/
theorem pyContains_ne_valueError (v : PyVal) (k : String) :
    pyContains v k ≠ .error .valueError := by
  cases v <;> simp [pyContains]

/-- Claim C5 as amended: success is declared only when the fetched document's
`cas:serviceResponse` node contains an authentication-success or
proxy-success marker; a `ValueError` during fetch/parse yields failure with
the empty default document without raising; every other exception propagates:
a network `URLError` or parse `ExpatError` raised by the fetch/parse stage
(part 3), the `KeyError`/`TypeError` raised by subscripting a successfully
fetched document whose `cas:serviceResponse` node is missing or which is not
a dict (part 4), and the `TypeError` raised by the membership test on a
`None` service-response node (part 5). -/
theorem validate_cas_request_amended (net : CasUrl → Except PyErr PyVal)
    (url : CasUrl) :
    (∀ d, validate_cas_request net url = .ok (true, d) →
      net url = .ok d ∧
      ∃ sr, pyIndex d "cas:serviceResponse" = .ok sr ∧
        (pyContains sr "cas:authenticationSuccess" = .ok true ∨
         pyContains sr "cas:proxySuccess" = .ok true)) ∧
    (net url = .error .valueError →
      validate_cas_request net url = .ok (false, .dict .nil)) ∧
    (∀ e, e ≠ PyErr.valueError → net url = .error e →
      validate_cas_request net url = .error e) ∧
    (∀ d e, net url = .ok d →
      pyIndex d "cas:serviceResponse" = .error e →
      validate_cas_request net url = .error e) ∧
    (∀ d sr e, net url = .ok d →
      pyIndex d "cas:serviceResponse" = .ok sr →
      pyContains sr "cas:authenticationSuccess" = .error e →
      validate_cas_request net url = .error e) := by
  refine ⟨?_, ?_, ?_, ?_, ?_⟩
  · intro d h
    unfold validate_cas_request at h
    repeat' split at h
    all_goals simp at h
    · rename_i x1 xml hn x2 sr hi x3 hc
      subst h
      exact ⟨hn, sr, hi, Or.inl hc⟩
    · rename_i x1 xml hn x2 sr hi x3 hc1 x4 bb hc2
      obtain ⟨rfl, rfl⟩ := h
      exact ⟨hn, sr, hi, Or.inr hc2⟩
  · intro h
    simp [validate_cas_request, h]
  · intro e hne h
    unfold validate_cas_request
    rw [h]
    cases e with
    | valueError => exact absurd rfl hne
    | urlError => rfl
    | expatError => rfl
    | keyError => rfl
    | typeError => rfl
    | attributeError => rfl
    | indexError => rfl
  · intro d e hn hi
    cases e <;> first
      | exact absurd hi (pyIndex_ne_valueError d "cas:serviceResponse")
      | simp only [validate_cas_request, hn, hi]
  · intro d sr e hn hi hc
    cases e <;> first
      | exact absurd hc (pyContains_ne_valueError sr "cas:authenticationSuccess")
      | simp only [validate_cas_request, hn, hi, hc]

/-- A network oracle answering a document without a `cas:serviceResponse`
key. -/
def netNoServiceResponse : CasUrl → Except PyErr PyVal :=
  fun _ => .ok (.dict (.cons "foo" (.str "x") .nil))

/-- A network oracle answering a document whose `cas:serviceResponse` node is
`None` (an empty XML element). -/
def netNoneServiceResponse : CasUrl → Except PyErr PyVal :=
  fun _ => .ok (.dict (.cons "cas:serviceResponse" PyVal.none .nil))

/-- Witness for the amended C5: a `ValueError` during fetch/parse is caught
and yields failure with the empty document, while a missing
`cas:serviceResponse` key raises `KeyError` and a `None` service-response
node raises `TypeError` past the boundary. -/
theorem validate_cas_request_amended_witness :
    validate_cas_request netValueError (CasUrl.proxy "cas" "svc" "t") =
      .ok (false, .dict .nil) ∧
    validate_cas_request netNoServiceResponse (CasUrl.proxy "cas" "svc" "t") =
      .error .keyError ∧
    validate_cas_request netNoneServiceResponse (CasUrl.proxy "cas" "svc" "t") =
      .error .typeError :=
  ⟨(validate_cas_request_amended netValueError (CasUrl.proxy "cas" "svc" "t")).2.1
      rfl,
   (validate_cas_request_amended netNoServiceResponse
      (CasUrl.proxy "cas" "svc" "t")).2.2.2.1
      (.dict (.cons "foo" (.str "x") .nil)) .keyError rfl rfl,
   (validate_cas_request_amended netNoneServiceResponse
      (CasUrl.proxy "cas" "svc" "t")).2.2.2.2
      (.dict (.cons "cas:serviceResponse" PyVal.none .nil)) PyVal.none .typeError
      rfl rfl rfl⟩

/-! ## Claim C6 (corrected) -/

/-- CAS attributes for the user `jdoe` carrying the fresh access token. -/
def attrsJdoe : PyEntries :=
  .cons "cas:preferred_username" (.str "jdoe")
    (.cons "cas:access_token" (.str "tok2") .nil)

/-- A first-hop success response carrying the one-time proxy ticket. -/
def docHop1 : PyVal :=
  .dict (.cons "cas:serviceResponse"
    (.dict (.cons "cas:proxySuccess"
      (.dict (.cons "cas:proxyTicket" (.str "PT-1") .nil)) .nil)) .nil)

/-- A second-hop success response with the `jdoe` attributes. -/
def docHop2 : PyVal :=
  .dict (.cons "cas:serviceResponse"
    (.dict (.cons "cas:authenticationSuccess"
      (.dict (.cons "cas:attributes" (.dict attrsJdoe) .nil)) .nil)) .nil)

/-- A network oracle running the valid two-hop handshake. -/
def netTwoHop : CasUrl → Except PyErr PyVal
  | .proxy _ _ _ => .ok docHop1
  | .proxyValidate _ _ _ => .ok docHop2

/-- The member row for `jdoe` before revalidation. -/
def memberJdoe : Member :=
  ⟨1, .str "G", .str "F", .str "jdoe", .str "e", .str "o", .str "tok1"⟩

/-- A session for `"PGT-abc"` created at time 0, stale at `now = 1441`. -/
def sessStale : MemberSession := ⟨1, "PGT-abc", 0⟩

/-- Database holding `memberJdoe` and the stale session. -/
def dbStale : DB := ⟨[memberJdoe], [sessStale], [], 2⟩

/-- Environment at 24h01m after `sessStale` was created, with the two-hop
oracle. -/
def envC6 : Env :=
  { now := 1441, casServer := "cas", baseUrl := "svc", dpsToken := "d",
    dec := decFail, net := netTwoHop, profile := profile500, loads := loadsFail }

/-- The session record created by the revalidation. -/
def sessNew : MemberSession := ⟨1, "PGT-abc", 1441⟩

/-- `memberJdoe` with the refreshed access token. -/
def memberJdoeFresh : Member :=
  ⟨1, .str "G", .str "F", .str "jdoe", .str "e", .str "o", .str "tok2"⟩

/-- The database after revalidating `"PGT-abc"`: the stale session is kept
and a second session with the same ticket key is appended. -/
def dbAfterReval : DB := ⟨[memberJdoeFresh], [sessStale, sessNew], [], 2⟩

/-- Counterexample to claim C6: revalidating the ticket `"PGT-abc"` whose
cached session is stale produces a database holding two session records under
the same ticket key, so the at-most-one-session-per-ticket invariant is not
preserved by the code. -/
theorem session_duplicate_key_counterexample :
    validate_proxy envC6 dbStale "PGT-abc" =
      (.ok (some sessNew, dbAfterReval),
       [CasUrl.proxy "cas" "svc" "PGT-abc",
        CasUrl.proxyValidate "cas" "svc" (.str "PT-1")]) ∧
    (dbAfterReval.sessions.filter
        (fun s => s.session_key == "PGT-abc")).length = 2 :=
  ⟨rfl, rfl⟩

/-- Claim C6 as amended: re-validation always creates a fresh Session record
and never mutates or removes existing ones — the new record is appended after
the existing sessions with the presented ticket as its key — but uniqueness
per ticket key is not enforced, so a stale session under the same key is
duplicated rather than superseded. -/
theorem start_member_session_appends (doc : PyVal) (ticket : String) (now : Nat)
    (db : DB) (ms : MemberSession) (db' : DB)
    (h : start_member_session doc ticket now db = .ok (ms, db')) :
    db'.sessions = db.sessions ++ [ms] ∧
    ms.session_key = ticket ∧ ms.creation_date = now := by
  unfold start_member_session at h
  repeat' (first | split at h | dsimp only at h)
  all_goals cases h
  all_goals exact ⟨rfl, rfl, rfl⟩

/-- Witness for the amended C6 at the concrete second-hop response: the stale
session survives and `sessNew` is appended under the same key. -/
theorem start_member_session_appends_witness :
    dbAfterReval.sessions = dbStale.sessions ++ [sessNew] ∧
    sessNew.session_key = "PGT-abc" ∧ sessNew.creation_date = 1441 :=
  start_member_session_appends docHop2 "PGT-abc" 1441 dbStale sessNew dbAfterReval
    rfl

/-! ## Claim C7 -/

/-- Claim C7: under a well-shaped second-hop success response (the hypotheses
name each extracted piece), `start_member_session` creates exactly one new
member row when the extracted username is unseen — appended with that username
and the fresh access token — and when the username already exists it updates
that row in place (same row count, no duplicate) and overwrites its federated
access token with the fresh one; and a missing attribute key resolves to the
empty string rather than an error. -/
theorem start_member_session_principal (doc : PyVal) (ticket : String) (now : Nat)
    (db : DB) (sr auth attrs usr urs gn fam em org : PyVal)
    (h1 : pyIndex doc "cas:serviceResponse" = .ok sr)
    (h2 : pyIndex sr "cas:authenticationSuccess" = .ok auth)
    (h3 : pyGetDefault auth "cas:attributes" = .ok attrs)
    (h4 : get_cas_attribute_value attrs "preferred_username" = .ok usr)
    (h5 : get_cas_attribute_value attrs "access_token" = .ok urs)
    (h6 : get_cas_attribute_value attrs "given_name" = .ok gn)
    (h7 : get_cas_attribute_value attrs "family_name" = .ok fam)
    (h8 : get_cas_attribute_value attrs "email" = .ok em)
    (h9 : get_cas_attribute_value attrs "organization" = .ok org) :
    (db.members.find? (fun m => PyVal.beq m.username usr) = Option.none →
      ∃ newMember, start_member_session doc ticket now db =
          .ok (⟨db.nextId, ticket, now⟩,
               { db with members := db.members ++ [newMember],
                         nextId := db.nextId + 1,
                         sessions := db.sessions ++ [⟨db.nextId, ticket, now⟩] }) ∧
        newMember.username = usr ∧ newMember.urs_token = urs ∧
        (db.members ++ [newMember]).length = db.members.length + 1) ∧
    (∀ m, db.members.find? (fun mm => PyVal.beq mm.username usr) = some m →
      start_member_session doc ticket now db =
        .ok (⟨m.id, ticket, now⟩,
             { db with members := updateFirstMember db.members
                         (fun x => PyVal.beq x.username usr)
                         (fun x => { x with urs_token := urs }),
                       sessions := db.sessions ++ [⟨m.id, ticket, now⟩] }) ∧
      (updateFirstMember db.members (fun x => PyVal.beq x.username usr)
          (fun x => { x with urs_token := urs })).length = db.members.length ∧
      (updateFirstMember db.members (fun x => PyVal.beq x.username usr)
          (fun x => { x with urs_token := urs })).find?
          (fun x => PyVal.beq x.username usr) = some { m with urs_token := urs }) ∧
    (∀ es key, PyEntries.hasKey es ("cas:" ++ key) = false →
      get_cas_attribute_value (.dict es) key = .ok (.str "")) := by
  refine ⟨?_, ?_, ?_⟩
  · intro hnone
    refine ⟨⟨db.nextId, gn, fam, usr, em, org, urs⟩, ?_, rfl, rfl, by simp⟩
    simp only [start_member_session, h1, h2, h3, h4, h5, h6, h7, h8, h9, hnone]
  · intro m hm
    have hkeep : PyVal.beq ({ m with urs_token := urs } : Member).username usr = true := by
      have := List.find?_some hm
      simpa using this
    refine ⟨?_, updateFirstMember_length db.members _ _,
      updateFirstMember_find? db.members _ _ m hm hkeep⟩
    simp only [start_member_session, h1, h2, h3, h4, h5, hm]
  · intro es key hk
    cases hl : es.lookup ("cas:" ++ key) with
    | some v =>
        unfold PyEntries.hasKey at hk
        rw [hl] at hk
        simp at hk
    | none => cases he : es.isEmpty <;> simp [get_cas_attribute_value, he, hl]

/-- Witness for C7: over the empty database, the two-hop success attributes
for `jdoe` create exactly one member row with the fresh token (the attribute
keys `given_name` etc. are absent and resolve to the empty string). -/
theorem start_member_session_principal_witness :
    ∃ newMember, start_member_session docHop2 "PGT-x" 5 dbEmpty =
        .ok (⟨dbEmpty.nextId, "PGT-x", 5⟩,
             { dbEmpty with members := dbEmpty.members ++ [newMember],
                            nextId := dbEmpty.nextId + 1,
                            sessions := dbEmpty.sessions ++
                              [⟨dbEmpty.nextId, "PGT-x", 5⟩] }) ∧
      newMember.username = .str "jdoe" ∧ newMember.urs_token = .str "tok2" ∧
      (dbEmpty.members ++ [newMember]).length = dbEmpty.members.length + 1 :=
  (start_member_session_principal docHop2 "PGT-x" 5 dbEmpty _ _ _ _ _ _ _ _ _
    rfl rfl rfl rfl rfl rfl rfl rfl rfl).1 rfl

/-! ## Claim C8 -/

/-- Claim C8: when a request carries both a `proxy-ticket` and an
`Authorization` header and the proxy path yields a positive result, the
facade returns the proxy result and its remote-call trace consists of the
proxy path's CAS calls only — no call to the profile endpoint (the bearer
path) is ever recorded. -/
theorem facade_proxy_priority (env : Env) (db : DB) (req : Request)
    (pt b : String) (ms : MemberSession) (db' : DB) (tr : List CasUrl)
    (hp : req.lookup "proxy-ticket" = some pt)
    (_hb : req.lookup "Authorization" = some b)
    (hv : validate_proxy env db pt = (.ok (some ms, db'), tr)) :
    get_authorized_user env db req =
      (.ok ((db'.members.find? (fun m => m.id == ms.member_id)).map AuthUser.member,
            db'),
       tr.map RemoteCall.cas) ∧
    ∀ t, RemoteCall.profile t ∉ tr.map RemoteCall.cas := by
  constructor
  · simp [get_authorized_user, hp, hv]
  · intro t ht
    rcases List.mem_map.mp ht with ⟨u, _, hcontra⟩
    cases hcontra

/-- A request carrying both a proxy ticket and a bearer token. -/
def reqBoth : Request :=
  ⟨[("proxy-ticket", "PGT-abc"), ("Authorization", "Bearer tok")]⟩

/-- Witness for C8: with both headers present and a fresh cached session, the
facade answers from the proxy path with an empty remote-call trace. -/
theorem facade_proxy_priority_witness :
    get_authorized_user envHit dbHit reqBoth =
      (.ok ((dbHit.members.find? (fun m => m.id == sessHit.member_id)).map
              AuthUser.member, dbHit), []) ∧
    ∀ t, RemoteCall.profile t ∉ ([] : List RemoteCall) :=
  facade_proxy_priority envHit dbHit reqBoth "PGT-abc" "Bearer tok" sessHit dbHit []
    rfl rfl rfl
